import Mathlib

/-!
Shallow embedding of the boids flocking simulator in `src/kernel.cu`
(uniform spatial grid, three neighbor-query strategies, integrator,
simulation driver), together with theorems settling the specification
claims about it.

Modelling conventions:
* `float` scalars are modelled as exact rationals (`ℚ`); the speed-cap
  rescale, which needs a real square root, is modelled over `ℝ` in a
  separate section and abstracted behind a `rescale` parameter in the
  rational pipeline.
* Device arrays are modelled as total functions `ℤ → _` (a memory);
  out-of-bounds reads performed by the source are thereby defined but
  return whatever the modelled memory holds there, mirroring the
  indeterminate contents of device memory.
* Each CUDA kernel writes a disjoint slot per thread; a kernel launch is
  modelled as the pointwise function of all its threads, except for the
  racy `renewGridCellIndex` scatter, which is modelled as one valid
  (index-ascending) schedule of its unordered writes.
-/

attribute [local semireducible] Rat.add Rat.mul Rat.sub Rat.inv

/-- Three-component float vector (`glm::vec3`), with exact ℚ components. -/
structure Vec3 where
  x : ℚ
  y : ℚ
  z : ℚ
deriving DecidableEq

instance : Add Vec3 := ⟨fun a b => ⟨a.x + b.x, a.y + b.y, a.z + b.z⟩⟩

instance : Sub Vec3 := ⟨fun a b => ⟨a.x - b.x, a.y - b.y, a.z - b.z⟩⟩

/-- Model of `v * c` for a scalar `c` (glm vector-scalar product). -/
def vscale (c : ℚ) (v : Vec3) : Vec3 := ⟨c * v.x, c * v.y, c * v.z⟩

/-- Model of `v /= n` for an `int` count `n` (componentwise division). -/
def vdivN (v : Vec3) (n : ℕ) : Vec3 := ⟨v.x / n, v.y / n, v.z / n⟩

/-- Squared euclidean norm.  The source compares `glm::length(d) < r`
with `r ≥ 0`; since `‖d‖ < r ↔ ‖d‖² < r²`, every such comparison is
modelled exactly as `normSq d < r * r`, which keeps the rational model
executable (the square root itself is only needed for the speed-cap
rescale, modelled over ℝ below). -/
def normSq (v : Vec3) : ℚ := v.x * v.x + v.y * v.y + v.z * v.z

/-! ### Configuration constants (`#define`s in kernel.cu) -/

def rule1Distance : ℚ := 5

def rule2Distance : ℚ := 3

def rule3Distance : ℚ := 5

def rule1Scale : ℚ := 1 / 100

def rule2Scale : ℚ := 1 / 10

def rule3Scale : ℚ := 1 / 10

def maxSpeed : ℚ := 1

def scene_scale : ℚ := 100

/-! ### Grid parameters, as derived once in `Boids::initSimulation` -/

/-- Model of `gridCellWidth = 2.0f * std::max(std::max(rule1Distance, rule2Distance), rule3Distance)` -/
def gridCellWidth : ℚ := 2 * max (max rule1Distance rule2Distance) rule3Distance

/-- Model of `halfSideCount = (int)(scene_scale / gridCellWidth) + 1`; the C cast
truncates toward zero, which on this positive operand equals the floor. -/
def halfSideCount : ℤ := ⌊scene_scale / gridCellWidth⌋ + 1

/-- Model of `gridSideCount = 2 * halfSideCount` -/
def gridSideCount : ℤ := 2 * halfSideCount

/-- Model of `gridCellCount = gridSideCount^3` -/
def gridCellCount : ℤ := gridSideCount * gridSideCount * gridSideCount

/-- Model of `gridInverseCellWidth = 1.0f / gridCellWidth` -/
def gridInverseCellWidth : ℚ := 1 / gridCellWidth

/-- Model of `halfGridWidth = gridCellWidth * halfSideCount` -/
def halfGridWidth : ℚ := gridCellWidth * (halfSideCount : ℚ)

/-- The global `gridMinimum` is zero-initialized and decremented by
`halfGridWidth` on each axis by `initSimulation`. -/
def gridMinimum : Vec3 := ⟨0 - halfGridWidth, 0 - halfGridWidth, 0 - halfGridWidth⟩

/-! ### Spatial grid indexer -/

/-- Model of `gridIndex3Dto1D` (kernel.cu lines 419-429): dense 1D encoding of a 3D
cell coordinate, or the sentinel `-1` when any component is outside
`[0, gridResolution)`. -/
def gridIndex3Dto1D (x y z gridResolution : ℤ) : ℤ :=
  if gridResolution ≤ x ∨ x < 0 ∨ gridResolution ≤ y ∨ y < 0 ∨ gridResolution ≤ z ∨ z < 0 then
    -1
  else
    x + y * gridResolution + z * gridResolution * gridResolution

/-- One 3D cell coordinate: `floor((pos - gridMin) * inverseCellWidth)`. -/
def cellCoord (c m invW : ℚ) : ℤ := ⌊(c - m) * invW⌋

/-- The per-particle body of `kernComputeIndices`: the 1D cell id of a
position. -/
def boidGridIndex (gridResolution : ℤ) (gridMin : Vec3) (invW : ℚ) (p : Vec3) : ℤ :=
  gridIndex3Dto1D (cellCoord p.x gridMin.x invW) (cellCoord p.y gridMin.y invW)
    (cellCoord p.z gridMin.z invW) gridResolution

/-- Specialization of `boidGridIndex` to the grid parameters derived in
`initSimulation`. -/
def boidCellOf (p : Vec3) : ℤ :=
  boidGridIndex gridSideCount gridMinimum gridInverseCellWidth p

/-- Model of `kernComputeIndices` (kernel.cu lines 431-451): for each `index < N`,
`indices[index] = index` and `gridIndices[index]` is the encoded cell of
`pos[index]`; other memory is untouched. -/
def kernComputeIndices (N : ℕ) (gridResolution : ℤ) (gridMin : Vec3) (inverseCellWidth : ℚ)
    (pos : ℤ → Vec3) (indices gridIndices : ℤ → ℤ) : (ℤ → ℤ) × (ℤ → ℤ) :=
  (fun i => if 0 ≤ i ∧ i < (N : ℤ) then i else indices i,
   fun i => if 0 ≤ i ∧ i < (N : ℤ) then
      boidGridIndex gridResolution gridMin inverseCellWidth (pos i)
    else gridIndices i)

/-! ### Memories and small helpers -/

/-- Write one integer slot of a memory. -/
def writeMem (m : ℤ → ℤ) (i v : ℤ) : ℤ → ℤ := fun j => if j = i then v else m j

/-- Write one vector slot of a memory. -/
def writeVec (m : ℤ → Vec3) (i : ℤ) (v : Vec3) : ℤ → Vec3 := fun j => if j = i then v else m j

/-- A memory whose first `l.length` slots hold `l` and whose other slots
(including negative addresses) hold `back`. -/
def memOfList (l : List ℤ) (back : ℤ → ℤ) : ℤ → ℤ :=
  fun i => if 0 ≤ i ∧ i.toNat < l.length then l.getD i.toNat 0 else back i

/-- A vector memory built from a list, with default `⟨0,0,0⟩` elsewhere. -/
def memVec (l : List Vec3) : ℤ → Vec3 :=
  fun i => if 0 ≤ i ∧ i.toNat < l.length then l.getD i.toNat ⟨0, 0, 0⟩ else ⟨0, 0, 0⟩

/-- The inclusive integer range `[a, b]` as a list (empty when `b < a`);
models the C loops `for (i = a; i <= b; i++)`. -/
def intRangeIncl (a b : ℤ) : List ℤ :=
  (List.range (b + 1 - a).toNat).map (fun k => a + (k : ℤ))

/-- The half-open range `[0, N)` as a list of integers; models the C loop
`for (i = 0; i < N; i++)`. -/
def intRange (N : ℕ) : List ℤ := (List.range N).map (fun k => (k : ℤ))

/-! ### Cell range table builder (`kernIdentifyCellStartEnd`) -/

/-- The rightward scan `while (keys[i] == keys[i+1]) i++;` of
`kernIdentifyCellStartEnd`.  The source loop is an unbounded `while`; the
model carries an explicit iteration bound `fuel`, instantiated large
enough that every scan appearing in the theorems below exits (at the
first adjacent inequality) before exhausting it. -/
def scanRight (keys : ℤ → ℤ) : ℕ → ℤ → ℤ
  | 0, i => i
  | fuel + 1, i => if keys i = keys (i + 1) then scanRight keys fuel (i + 1) else i

/-- The leftward scan `while (keys[j-1] == keys[j]) j--;` of
`kernIdentifyCellStartEnd` (same `fuel` convention as `scanRight`).
Note that for a sorted position inside a run that starts at slot 0 this
scan reaches `j = 0` and the source then reads `keys[-1]`, an
out-of-bounds device read; the memory model makes that read return
whatever the modelled memory holds at address `-1`. -/
def scanLeft (keys : ℤ → ℤ) : ℕ → ℤ → ℤ
  | 0, j => j
  | fuel + 1, j => if keys (j - 1) = keys j then scanLeft keys fuel (j - 1) else j

/-- Model of `kernIdentifyCellStartEnd` (kernel.cu lines 465-545), transcribed
branch by branch: for each sorted position `index < N` it writes
`gridCellStartIndices[index]` and `gridCellEndIndices[index]`; slots
outside `[0, N)` keep the base memories `startsBase`/`endsBase`.
The scanning branches return `scanLeft ... - 1` resp. `scanRight ... + 1`
exactly as the source does (`gridCellStartIndices[index] = k - 1;` and
`gridCellEndIndices[index] = i + 1;`). -/
def cellStartEnd (fuel : ℕ) (N : ℤ) (keys startsBase endsBase : ℤ → ℤ) :
    (ℤ → ℤ) × (ℤ → ℤ) :=
  (fun index =>
    if 0 ≤ index ∧ index < N then
      if index = 0 then 0
      else if index = N - 1 then
        if keys (index - 1) ≠ keys index then index else scanLeft keys fuel index - 1
      else
        if keys (index - 1) ≠ keys index then index else scanLeft keys fuel index - 1
    else startsBase index,
   fun index =>
    if 0 ≤ index ∧ index < N then
      if index = 0 then
        if keys index ≠ keys (index + 1) then index else scanRight keys fuel index + 1
      else if index = N - 1 then index
      else
        if keys index ≠ keys (index + 1) then index else scanRight keys fuel index + 1
    else endsBase index)

/-- Model of `renewGridCellIndex` (kernel.cu lines 558-570): every thread
`index < N` performs the unordered scatter-write
`gridCellIndex[particleGridIndices[index]] = gridCellStartIndices[index]`.
The parallel writes carry no ordering; the model executes one valid
schedule, in ascending `index` order. -/
def renewGridCellIndex (N : ℕ) (gridCellStartIndices gridCellIndex particleGridIndices : ℤ → ℤ) :
    ℤ → ℤ :=
  (intRange N).foldl
    (fun m index => writeMem m (particleGridIndices index) (gridCellStartIndices index))
    gridCellIndex

/-- Model of `InitializeGridCellIndex` (kernel.cu lines 883-891): reset the head
lookup of every cell in `[0, gridSideCount³)` to the empty sentinel. -/
def kernResetGridCellIndex (cellCount : ℤ) (gridCellIndex : ℤ → ℤ) : ℤ → ℤ :=
  fun i => if 0 ≤ i ∧ i < cellCount then -1 else gridCellIndex i

/-! ### Sort stage -/

/-- Stable insertion of a `(key, value)` pair into a key-sorted list. -/
def insertPair (p : ℤ × ℤ) : List (ℤ × ℤ) → List (ℤ × ℤ)
  | [] => [p]
  | q :: rest => if p.1 ≤ q.1 then p :: q :: rest else q :: insertPair p rest

/-- Model of `thrust::sort_by_key`: co-sort `(GridIndex, ParticleIndex)`
pairs by key ascending.  The source sort is unstable (ties may land in
any order); the model fixes one admissible outcome, the stable order. -/
def sortPairsByKey (l : List (ℤ × ℤ)) : List (ℤ × ℤ) := l.foldr insertPair []


/-! ### Neighbor query evaluator: shared rule accumulation -/

/-- Running accumulator of the three flocking rules (the five locals
`perceivedCenter`, `count1`, `cVector`/`vectorC`, `perceivedVelocity`,
`count2`/`count3` shared by all three strategies). -/
structure RuleAcc where
  perceivedCenter : Vec3
  count1 : ℕ
  vectorC : Vec3
  perceivedVelocity : Vec3
  count3 : ℕ

/-- The empty accumulator (all locals zero-initialized). -/
def ruleAcc0 : RuleAcc := ⟨⟨0, 0, 0⟩, 0, ⟨0, 0, 0⟩, ⟨0, 0, 0⟩, 0⟩

/-- One candidate's contribution: the fused rule-1/2/3 body that
`newUpdateVelocity`, `UpdateVelocity8Grids` and `CoherentUpDateVelocity`
all apply to each tested boid (distance tests against `rule1Distance`,
`rule2Distance` with the redundant `< 100` guard, and `rule3Distance`). -/
def ruleStep (currentPosition : Vec3) (acc : RuleAcc) (testPos testVel : Vec3) : RuleAcc :=
  let acc1 :=
    if normSq (testPos - currentPosition) < rule1Distance * rule1Distance then
      { acc with perceivedCenter := acc.perceivedCenter + testPos, count1 := acc.count1 + 1 }
    else acc
  let acc2 :=
    if normSq (testPos - currentPosition) < rule2Distance * rule2Distance then
      if normSq (testPos - currentPosition) < 100 * 100 then
        { acc1 with vectorC := acc1.vectorC - (testPos - currentPosition) }
      else acc1
    else acc1
  if normSq (testPos - currentPosition) < rule3Distance * rule3Distance then
    { acc2 with perceivedVelocity := acc2.perceivedVelocity + testVel, count3 := acc2.count3 + 1 }
  else acc2

/-- Closing computation shared by the grid strategies: average (or default)
the accumulated sums and add the three scaled contributions to the old
velocity (kernel.cu lines 682-698 and 1019-1034). -/
def finishVelocity (currentPosition currentVelocity : Vec3) (acc : RuleAcc) : Vec3 :=
  let perceivedCenter :=
    if acc.count1 = 0 then currentPosition else vdivN acc.perceivedCenter acc.count1
  let perceivedVelocity :=
    if acc.count3 = 0 then acc.perceivedVelocity else vdivN acc.perceivedVelocity acc.count3
  currentVelocity + vscale rule1Scale (perceivedCenter - currentPosition) +
    vscale rule2Scale acc.vectorC + vscale rule3Scale perceivedVelocity

/-- The grid neighbor sweep shared verbatim by `newUpdateVelocity`
(kernel.cu lines 573-699) and `CoherentUpDateVelocity` (lines 911-1035):
scan the focal sorted range `[start[index], end[index]]` skipping slot
`index` itself, then the 3×3×3 cell neighborhood skipping the sentinel,
the focal cell and empty cells, scanning each hit cell's range
`[gridCellIndex[c], gridCellEndIndices[gridCellIndex[c]]]`.
The two source functions differ only in how a tested slot is turned into
particle data, so that access is the `dataPos`/`dataVel` parameter:
the scattered strategy passes the one-indirection access
`pos[particleArrayIndices[·]]`, the coherent strategy the direct access
into its rearranged buffers.  C integer division (truncation toward
zero) is `Int.tdiv`. -/
def neighborAccum (currentPosition : Vec3) (index : ℤ) (dataPos dataVel : ℤ → Vec3)
    (particleGridIndices gridCellStartIndices gridCellEndIndices gridCellIndex : ℤ → ℤ)
    (side : ℤ) : RuleAcc :=
  let gridIndex := particleGridIndices index
  let gridIdx3Z := Int.tdiv gridIndex (side * side)
  let gridIdx3Y := Int.tdiv (gridIndex - gridIdx3Z * side * side) side
  let gridIdx3X := gridIndex - gridIdx3Z * side * side - gridIdx3Y * side
  let startIndex := gridCellStartIndices index
  let endIndex := gridCellEndIndices index
  let accFocal := (intRangeIncl startIndex endIndex).foldl
    (fun acc i =>
      if i ≠ index then ruleStep currentPosition acc (dataPos i) (dataVel i) else acc)
    ruleAcc0
  (intRangeIncl (gridIdx3X - 1) (gridIdx3X + 1)).foldl
    (fun acc j =>
      (intRangeIncl (gridIdx3Y - 1) (gridIdx3Y + 1)).foldl
        (fun acc k =>
          (intRangeIncl (gridIdx3Z - 1) (gridIdx3Z + 1)).foldl
            (fun acc m =>
              let testGridIndexBeighbor := gridIndex3Dto1D j k m side
              if testGridIndexBeighbor ≠ -1 then
                if testGridIndexBeighbor ≠ gridIndex then
                  if gridCellIndex testGridIndexBeighbor ≠ -1 then
                    let startPoint := gridCellIndex testGridIndexBeighbor
                    let endPoint := gridCellEndIndices startPoint
                    (intRangeIncl startPoint endPoint).foldl
                      (fun acc n => ruleStep currentPosition acc (dataPos n) (dataVel n)) acc
                  else acc
                else acc
              else acc)
            acc)
        acc)
    accFocal

/-- Model of `newUpdateVelocity` (kernel.cu lines 573-699): the scattered-grid
velocity update for the boid `boidIndex` sitting in sorted slot `index`,
fetching candidate data through the `particleArrayIndices` indirection
(position/velocity arrays remain in original id order).  The unused
source parameters `N` and `gridCellWidth` are dropped. -/
def newUpdateVelocity (index boidIndex : ℤ) (pos vel : ℤ → Vec3)
    (particleArrayIndices particleGridIndices gridCellStartIndices gridCellEndIndices
      gridCellIndex : ℤ → ℤ) (side : ℤ) : Vec3 :=
  finishVelocity (pos boidIndex) (vel boidIndex)
    (neighborAccum (pos boidIndex) index
      (fun i => pos (particleArrayIndices i)) (fun i => vel (particleArrayIndices i))
      particleGridIndices gridCellStartIndices gridCellEndIndices gridCellIndex side)

/-- Model of `CoherentUpDateVelocity` (kernel.cu lines 911-1035): the coherent-grid
velocity update for sorted slot `index`, reading the rearranged
position/velocity buffers directly at sorted offsets.  (The source
signature also receives `particleArrayIndices` but never reads it; the
unused parameters are dropped.) -/
def CoherentUpDateVelocity (index : ℤ) (pos vel : ℤ → Vec3)
    (particleGridIndices gridCellStartIndices gridCellEndIndices gridCellIndex : ℤ → ℤ)
    (side : ℤ) : Vec3 :=
  finishVelocity (pos index) (vel index)
    (neighborAccum (pos index) index pos vel
      particleGridIndices gridCellStartIndices gridCellEndIndices gridCellIndex side)

/-- Model of `computeVelocityChange` (kernel.cu lines 275-355): the brute-force
velocity change for particle `iSelf` against all `N` particles, with the
source's three separate loops (rule 1, then rule 2 with its redundant
`< 100` guard, then rule 3) transcribed as three folds over
`i ∈ [0, N), i ≠ iSelf`. -/
def computeVelocityChange (N : ℕ) (iSelf : ℤ) (pos vel : ℤ → Vec3) : Vec3 :=
  let thisPos := pos iSelf
  let originalSpeed := vel iSelf
  let others := (intRange N).filter (fun i => i ≠ iSelf)
  let pc := others.foldl
    (fun (s : Vec3 × ℕ) i =>
      if normSq (pos i - thisPos) < rule1Distance * rule1Distance then (s.1 + pos i, s.2 + 1)
      else s)
    (⟨0, 0, 0⟩, 0)
  let perceivedCenter := if pc.2 ≠ 0 then vdivN pc.1 pc.2 else thisPos
  let cVector := others.foldl
    (fun s j =>
      if normSq (pos j - thisPos) < rule2Distance * rule2Distance then
        if normSq (pos j - thisPos) < 100 * 100 then s - (pos j - thisPos) else s
      else s)
    (⟨0, 0, 0⟩ : Vec3)
  let pv := others.foldl
    (fun (s : Vec3 × ℕ) k =>
      if normSq (pos k - thisPos) < rule3Distance * rule3Distance then (s.1 + vel k, s.2 + 1)
      else s)
    (⟨0, 0, 0⟩, 0)
  let perceivedVelocity := if pv.2 ≠ 0 then vdivN pv.1 pv.2 else pv.1
  originalSpeed + vscale rule1Scale (perceivedCenter - thisPos) + vscale rule2Scale cVector +
    vscale rule3Scale perceivedVelocity

/-- The speed cap applied by every update kernel before the write to the
next buffer: `if (glm::length(v) > maxSpeed) v = glm::normalize(v)*maxSpeed;`.
The test `‖v‖ > maxSpeed` is modelled exactly as `normSq v > maxSpeed²`;
the rescaled vector `normalize(v)*maxSpeed` has irrational components in
general, so the rational pipeline abstracts the taken branch behind the
`rescale` parameter.  The exact rescale semantics are modelled over ℝ by
`clampSpeed` below and settled by claim C6. -/
def clampSpeedWith (rescale : Vec3 → Vec3) (v : Vec3) : Vec3 :=
  if maxSpeed * maxSpeed < normSq v then rescale v else v

/-- Placeholder over-cap behavior for concrete runs in which the cap
branch is never taken (every stated evaluation keeps `normSq ≤ 1`). -/
def idRescale : Vec3 → Vec3 := fun v => v

/-! ### Position integrator (`kernUpdatePos`) -/

/-- The per-axis boundary wrap of `kernUpdatePos` (kernel.cu lines
400-407): first `c < -scene_scale ? scene_scale : c`, then
`c > scene_scale ? -scene_scale : c` on the updated value. -/
def wrapCoord (c : ℚ) : ℚ :=
  let c1 := if c < -scene_scale then scene_scale else c
  if scene_scale < c1 then -scene_scale else c1

/-- The per-particle body of `kernUpdatePos` (kernel.cu lines 391-411):
`thisPos += vel * dt`, then wrap each axis. -/
def kernUpdatePosOne (dt : ℚ) (p v : Vec3) : Vec3 :=
  let q := p + vscale dt v
  ⟨wrapCoord q.x, wrapCoord q.y, wrapCoord q.z⟩

/-! ### Simulation driver -/

/-- The driver's global device state: the particle buffers, the grid
tables, and whether `endSimulation` has released the allocations.
`cudaFree` does not overwrite the freed memory or null the global
pointers, so teardown is modelled as setting `freed` only. -/
structure SimState where
  numObjects : ℕ
  pos : ℤ → Vec3
  vel1 : ℤ → Vec3
  vel2 : ℤ → Vec3
  keys : ℤ → ℤ
  pai : ℤ → ℤ
  cellStarts : ℤ → ℤ
  cellEnds : ℤ → ℤ
  cellHead : ℤ → ℤ
  freed : Bool

/-- Model of `Boids::endSimulation` (kernel.cu lines 1241-1253): `cudaFree` every
buffer.  No global is reset and no flag the step functions consult is
written; only the allocations are released. -/
def endSimulation (s : SimState) : SimState := { s with freed := true }

/-- Model of `Boids::stepSimulationNaive` (kernel.cu lines 1079-1110):
`kernUpdateVelocityBruteForce` (compute, clamp, write to `vel2`), then
`kernUpdatePos` with `vel2`, then `cudaMemcpy vel1 ← vel2`.  As in the
source, no teardown or error check appears anywhere. -/
def stepSimulationNaive (rescale : Vec3 → Vec3) (dt : ℚ) (s : SimState) : SimState :=
  let n : ℤ := (s.numObjects : ℤ)
  let vel2' := fun i =>
    if 0 ≤ i ∧ i < n then clampSpeedWith rescale (computeVelocityChange s.numObjects i s.pos s.vel1)
    else s.vel2 i
  let pos' := fun i => if 0 ≤ i ∧ i < n then kernUpdatePosOne dt (s.pos i) (vel2' i) else s.pos i
  let vel1' := fun i => if 0 ≤ i ∧ i < n then vel2' i else s.vel1 i
  { s with pos := pos', vel1 := vel1', vel2 := vel2' }

/-- Model of `Boids::stepSimulationScatteredGrid` (kernel.cu lines 1112-1167):
index → reset head lookup → sort by key → identify cell start/end →
renew head lookup → scattered velocity update (clamped, written to
`vel2[boidIndex]`) → `kernUpdatePos` → `cudaMemcpy vel1 ← vel2`. -/
def stepSimulationScatteredGrid (rescale : Vec3 → Vec3) (dt : ℚ) (s : SimState) : SimState :=
  let N := s.numObjects
  let n : ℤ := (N : ℤ)
  let ix := kernComputeIndices N gridSideCount gridMinimum gridInverseCellWidth s.pos s.pai s.keys
  let cellHead0 := kernResetGridCellIndex gridCellCount s.cellHead
  let sorted := sortPairsByKey ((intRange N).map (fun k => (ix.2 k, ix.1 k)))
  let keysS := fun i =>
    if 0 ≤ i ∧ i < n then (sorted.getD i.toNat (0, 0)).1 else ix.2 i
  let paiS := fun i =>
    if 0 ≤ i ∧ i < n then (sorted.getD i.toNat (0, 0)).2 else ix.1 i
  let se := cellStartEnd N n keysS s.cellStarts s.cellEnds
  let cellHead1 := renewGridCellIndex N se.1 cellHead0 keysS
  let vel2' := (intRange N).foldl
    (fun m index =>
      writeVec m (paiS index)
        (clampSpeedWith rescale
          (newUpdateVelocity index (paiS index) s.pos s.vel1 paiS keysS se.1 se.2 cellHead1
            gridSideCount)))
    s.vel2
  let pos' := fun i => if 0 ≤ i ∧ i < n then kernUpdatePosOne dt (s.pos i) (vel2' i) else s.pos i
  let vel1' := fun i => if 0 ≤ i ∧ i < n then vel2' i else s.vel1 i
  { s with pos := pos', vel1 := vel1', vel2 := vel2',
           keys := keysS, pai := paiS, cellStarts := se.1, cellEnds := se.2,
           cellHead := cellHead1 }

/-- Model of `Boids::stepSimulationCoherentGrid` (kernel.cu lines 1171-1239): same
pipeline through the head lookup, then `RearangeVelAndPos` gathers
position/velocity into freshly allocated sorted-order buffers, the
coherent velocity update writes `vel2[index]` at sorted slots,
`kernUpdatePos` integrates the rearranged positions, and finally
`cudaMemcpy` copies `vel2` over `vel1` and the rearranged positions over
`dev_pos` verbatim — in sorted order, with no unsorting step. -/
def stepSimulationCoherentGrid (rescale : Vec3 → Vec3) (dt : ℚ) (s : SimState) : SimState :=
  let N := s.numObjects
  let n : ℤ := (N : ℤ)
  let ix := kernComputeIndices N gridSideCount gridMinimum gridInverseCellWidth s.pos s.pai s.keys
  let cellHead0 := kernResetGridCellIndex gridCellCount s.cellHead
  let sorted := sortPairsByKey ((intRange N).map (fun k => (ix.2 k, ix.1 k)))
  let keysS := fun i =>
    if 0 ≤ i ∧ i < n then (sorted.getD i.toNat (0, 0)).1 else ix.2 i
  let paiS := fun i =>
    if 0 ≤ i ∧ i < n then (sorted.getD i.toNat (0, 0)).2 else ix.1 i
  let se := cellStartEnd N n keysS s.cellStarts s.cellEnds
  let cellHead1 := renewGridCellIndex N se.1 cellHead0 keysS
  let rearrangePos := fun i => if 0 ≤ i ∧ i < n then s.pos (paiS i) else (⟨0, 0, 0⟩ : Vec3)
  let rearrangeVel := fun i => if 0 ≤ i ∧ i < n then s.vel1 (paiS i) else (⟨0, 0, 0⟩ : Vec3)
  let vel2' := (intRange N).foldl
    (fun m index =>
      writeVec m index
        (clampSpeedWith rescale
          (CoherentUpDateVelocity index rearrangePos rearrangeVel keysS se.1 se.2 cellHead1
            gridSideCount)))
    s.vel2
  let rearrangePos' := fun i =>
    if 0 ≤ i ∧ i < n then kernUpdatePosOne dt (rearrangePos i) (vel2' i) else rearrangePos i
  let vel1' := fun i => if 0 ≤ i ∧ i < n then vel2' i else s.vel1 i
  let pos' := fun i => if 0 ≤ i ∧ i < n then rearrangePos' i else s.pos i
  { s with pos := pos', vel1 := vel1', vel2 := vel2',
           keys := keysS, pai := paiS, cellStarts := se.1, cellEnds := se.2,
           cellHead := cellHead1 }

/-! ### The exact speed cap, over ℝ -/

/-- Model of `glm::vec3` with real components, for the parts of the model that
need the euclidean length itself (the speed-cap rescale). -/
structure RVec3 where
  x : ℝ
  y : ℝ
  z : ℝ

/-- Squared euclidean norm over ℝ. -/
def RVec3.normSq (v : RVec3) : ℝ := v.x * v.x + v.y * v.y + v.z * v.z

/-- Model of `glm::length v`: the euclidean norm. -/
noncomputable def RVec3.len (v : RVec3) : ℝ := Real.sqrt v.normSq

/-- Scalar multiple of a real vector. -/
def RVec3.rsmul (c : ℝ) (v : RVec3) : RVec3 := ⟨c * v.x, c * v.y, c * v.z⟩

/-- The speed cap over ℝ. -/
def maxSpeedR : ℝ := 1

/-- The exact clamp applied by every update kernel (kernel.cu lines
374-378, 874-877 and 1068-1071):
`if (glm::length(v) > maxSpeed) v = glm::normalize(v) * maxSpeed;`,
where `glm::normalize(v) * maxSpeed = (maxSpeed / ‖v‖) • v`. -/
noncomputable def clampSpeed (v : RVec3) : RVec3 :=
  if maxSpeedR < v.len then RVec3.rsmul (maxSpeedR / v.len) v else v

/-- The write performed by the update kernels: the clamped velocity goes
into slot `i` of the *next* buffer `vel2`; the current buffer `vel1` is
left untouched. -/
noncomputable def kernVelClampWrite (vel1 vel2 : ℤ → RVec3) (i : ℤ) (updatedVel : RVec3) :
    (ℤ → RVec3) × (ℤ → RVec3) :=
  (vel1, fun j => if j = i then clampSpeed updatedVel else vel2 j)

/-! ### Concrete fixtures -/

/-- The spec's cell-range fixture: sorted keys `[0,0,0,2,2,5]`.  Out of
bounds (in particular address `-1`, which the kernel's leftward scans do
read for sorted positions 1 and 2) the modelled device memory holds
`-7`. -/
def c1Keys : ℤ → ℤ := memOfList [0, 0, 0, 2, 2, 5] (fun _ => -7)

/-- Sorted keys `[0,1,1,2]`: a two-element run preceded by a singleton,
exercising both scanning branches of `kernIdentifyCellStartEnd` without
any out-of-bounds read. -/
def c4Keys : ℤ → ℤ := memOfList [0, 1, 1, 2] (fun _ => -7)

/-- The start table `kernIdentifyCellStartEnd` computes for `c4Keys`. -/
def c4Starts : ℤ → ℤ := (cellStartEnd 4 4 c4Keys (fun _ => 0) (fun _ => 0)).1

/-- Modelled from the spec: «CellHeadLookup[c] equals the first sorted
offset whose GridIndex equals c» — the leftmost sorted position in
`[0, N)` holding key `c`, for comparison with what the code computes. -/
def specFirstSortedOffset (keys : ℤ → ℤ) (N : ℕ) (c : ℤ) : Option ℤ :=
  (intRange N).find? (fun i => keys i = c)

/-- Four particles: ids 0,1,2 at x = 8, 9, 11 (cells 11,11,12 of the
22-wide grid) and id 3 far away at x = -50 (cell 6), all with
y = z = 5 (cell 11) and zero velocity.  Ids 0 and 1 share a cell; id 2
sits in the adjacent cell within rule-1/3 radius of id 0 and within
rule-2 radius of id 1. -/
def ex2State : SimState :=
  { numObjects := 4,
    pos := memVec [⟨8, 5, 5⟩, ⟨9, 5, 5⟩, ⟨11, 5, 5⟩, ⟨-50, 5, 5⟩],
    vel1 := fun _ => ⟨0, 0, 0⟩,
    vel2 := fun _ => ⟨0, 0, 0⟩,
    keys := fun _ => 0,
    pai := fun _ => 0,
    cellStarts := fun _ => 0,
    cellEnds := fun _ => 0,
    cellHead := fun _ => 0,
    freed := false }

/-- Two particles with zero velocity, far apart (cells 16 and 6, not
adjacent, distance 100): the cell-id sort maps id 1 to sorted slot 0 and
id 0 to sorted slot 1, a non-identity permutation, while neither
particle has any neighbor in range. -/
def ex3State : SimState :=
  { numObjects := 2,
    pos := memVec [⟨50, 5, 5⟩, ⟨-50, 5, 5⟩],
    vel1 := fun _ => ⟨0, 0, 0⟩,
    vel2 := fun _ => ⟨0, 0, 0⟩,
    keys := fun _ => 0,
    pai := fun _ => 0,
    cellStarts := fun _ => 0,
    cellEnds := fun _ => 0,
    cellHead := fun _ => 0,
    freed := false }

/-- One resting particle at (1,2,3). -/
def ex8State : SimState :=
  { numObjects := 1,
    pos := memVec [⟨1, 2, 3⟩],
    vel1 := fun _ => ⟨0, 0, 0⟩,
    vel2 := fun _ => ⟨0, 0, 0⟩,
    keys := fun _ => 0,
    pai := fun _ => 0,
    cellStarts := fun _ => 0,
    cellEnds := fun _ => 0,
    cellHead := fun _ => 0,
    freed := false }

/-- Membership in the simulation domain `[-scene_scale, scene_scale]³`. -/
def inCube (p : Vec3) : Prop :=
  -scene_scale ≤ p.x ∧ p.x ≤ scene_scale ∧ -scene_scale ≤ p.y ∧ p.y ≤ scene_scale ∧
    -scene_scale ≤ p.z ∧ p.z ≤ scene_scale

instance (p : Vec3) : Decidable (inCube p) := by unfold inCube; infer_instance

/-! ### Helper lemmas -/

theorem wrapCoord_mem (c : ℚ) : -scene_scale ≤ wrapCoord c ∧ wrapCoord c ≤ scene_scale := by
  unfold wrapCoord scene_scale
  dsimp only
  split_ifs with h1 h2 <;> constructor <;> linarith

theorem RVec3.normSq_rsmul (c : ℝ) (v : RVec3) :
    (RVec3.rsmul c v).normSq = c ^ 2 * v.normSq := by
  unfold RVec3.rsmul RVec3.normSq
  ring

theorem RVec3.normSq_nonneg (v : RVec3) : 0 ≤ v.normSq := by
  unfold RVec3.normSq
  nlinarith [mul_self_nonneg v.x, mul_self_nonneg v.y, mul_self_nonneg v.z]

theorem RVec3.len_nonneg (v : RVec3) : 0 ≤ v.len := Real.sqrt_nonneg _

theorem RVec3.len_rsmul (c : ℝ) (v : RVec3) : (RVec3.rsmul c v).len = |c| * v.len := by
  unfold RVec3.len
  rw [RVec3.normSq_rsmul, Real.sqrt_mul (sq_nonneg c), Real.sqrt_sq_eq_abs]

/-! ### Claim theorems -/

/-- C1: the claim says that for every non-decreasing sorted key array the
cell range table has `start[i]` = leftmost and `end[i]` = rightmost
sorted position sharing `GridIndex[i]`, and in particular that the
fixture `[0,0,0,2,2,5]` yields `start=[0,0,0,3,3,5]`, `end=[2,2,2,4,4,5]`.
The code's scanning branches return one-past/one-before the run
boundary: on the fixture they produce `end[0]=3`, `end[1]=3`, `end[3]=5`
and `start[4]=2` (none of these four involves an out-of-bounds read),
contradicting the claimed values `2`, `2`, `4` and `3`. -/
theorem c1_cellStartEnd_bug :
    ((cellStartEnd 6 6 c1Keys (fun _ => 0) (fun _ => 0)).2 0 = 3 ∧
      (cellStartEnd 6 6 c1Keys (fun _ => 0) (fun _ => 0)).2 1 = 3 ∧
      (cellStartEnd 6 6 c1Keys (fun _ => 0) (fun _ => 0)).2 3 = 5 ∧
      (cellStartEnd 6 6 c1Keys (fun _ => 0) (fun _ => 0)).1 4 = 2) ∧
    ¬((cellStartEnd 6 6 c1Keys (fun _ => 0) (fun _ => 0)).2 0 = 2 ∧
      (cellStartEnd 6 6 c1Keys (fun _ => 0) (fun _ => 0)).2 1 = 2 ∧
      (cellStartEnd 6 6 c1Keys (fun _ => 0) (fun _ => 0)).2 3 = 4 ∧
      (cellStartEnd 6 6 c1Keys (fun _ => 0) (fun _ => 0)).1 4 = 3) := by
  decide

/-- C4: the claim says every sorted position of a cell writes the
identical head value, namely the first sorted offset of that cell.  On
the sorted keys `[0,1,1,2]` the two writers of cell `1` (sorted
positions 1 and 2) write `start[1] = 1` and `start[2] = 0`, which are
not identical; the modelled (index-ascending) schedule leaves
`CellHeadLookup[1] = 0`, not the first sorted offset `1` of cell `1`. -/
theorem c4_cellHeadLookup_bug :
    (c4Keys 1 = 1 ∧ c4Keys 2 = 1) ∧
    (c4Starts 1 = 1 ∧ c4Starts 2 = 0 ∧ c4Starts 1 ≠ c4Starts 2) ∧
    renewGridCellIndex 4 c4Starts (kernResetGridCellIndex gridCellCount (fun _ => 0)) c4Keys 1
      = 0 ∧
    specFirstSortedOffset c4Keys 4 1 = some 1 ∧
    renewGridCellIndex 4 c4Starts (kernResetGridCellIndex gridCellCount (fun _ => 0)) c4Keys 1
      ≠ 1 := by
  decide

/-- C5: every coordinate produced by the integrator lies in
`[-scene_scale, scene_scale]`, a coordinate strictly below
`-scene_scale` wraps to `+scene_scale`, and one strictly above
`+scene_scale` wraps to `-scene_scale`, with a single wrap per axis, for
every `dt`, position and velocity. -/
theorem c5_wrap_invariant :
    (∀ (dt : ℚ) (p v : Vec3), inCube (kernUpdatePosOne dt p v)) ∧
    (∀ c : ℚ, c < -scene_scale → wrapCoord c = scene_scale) ∧
    (∀ c : ℚ, scene_scale < c → wrapCoord c = -scene_scale) := by
  refine ⟨fun dt p v => ?_, fun c h => ?_, fun c h => ?_⟩
  · obtain ⟨hx1, hx2⟩ := wrapCoord_mem (p + vscale dt v).x
    obtain ⟨hy1, hy2⟩ := wrapCoord_mem (p + vscale dt v).y
    obtain ⟨hz1, hz2⟩ := wrapCoord_mem (p + vscale dt v).z
    exact ⟨hx1, hx2, hy1, hy2, hz1, hz2⟩
  · unfold wrapCoord
    rw [if_pos h, if_neg (lt_irrefl scene_scale)]
  · unfold wrapCoord
    have h' : ¬c < -scene_scale := by unfold scene_scale at *; linarith
    rw [if_neg h', if_pos h]

/-- C5 witness: the wrap invariant and both wrap directions at concrete
inputs. -/
theorem c5_witness :
    (((-150 : ℚ) < -scene_scale) ∧ wrapCoord (-150) = scene_scale) ∧
    ((scene_scale < (150 : ℚ)) ∧ wrapCoord 150 = -scene_scale) ∧
    inCube (kernUpdatePosOne 1 ⟨0, 0, 0⟩ ⟨200, 0, 0⟩) :=
  ⟨⟨by decide, c5_wrap_invariant.2.1 (-150) (by decide)⟩,
   ⟨by decide, c5_wrap_invariant.2.2 150 (by decide)⟩,
   c5_wrap_invariant.1 1 ⟨0, 0, 0⟩ ⟨200, 0, 0⟩⟩

/-- C10: the boundary wrap maps any coordinate into
`[-scene_scale, scene_scale]` in a single application with no
precondition, and leaves the two boundary values themselves unchanged. -/
theorem c10_wrap_total :
    (∀ c : ℚ, -scene_scale ≤ wrapCoord c ∧ wrapCoord c ≤ scene_scale) ∧
    wrapCoord (-scene_scale) = -scene_scale ∧ wrapCoord scene_scale = scene_scale :=
  ⟨wrapCoord_mem, by decide, by decide⟩

/-- C7: for every particle `i < N` the indexer sets
`ParticleIndex[i] = i` and `GridIndex[i]` to the encoding of the floored
cell coordinates of `pos[i]`; the encoding is the dense
`x + y·side + z·side²` on `[0, side)³` and the sentinel `-1` whenever
any component lies outside `[0, side)`. -/
theorem c7_kernComputeIndices_correct :
    (∀ (N : ℕ) (res : ℤ) (gm : Vec3) (invW : ℚ) (pos : ℤ → Vec3) (ind gi : ℤ → ℤ) (i : ℤ),
        0 ≤ i → i < (N : ℤ) →
        (kernComputeIndices N res gm invW pos ind gi).1 i = i ∧
        (kernComputeIndices N res gm invW pos ind gi).2 i =
          gridIndex3Dto1D (cellCoord (pos i).x gm.x invW) (cellCoord (pos i).y gm.y invW)
            (cellCoord (pos i).z gm.z invW) res) ∧
    (∀ x y z res : ℤ, res ≤ x ∨ x < 0 ∨ res ≤ y ∨ y < 0 ∨ res ≤ z ∨ z < 0 →
        gridIndex3Dto1D x y z res = -1) ∧
    (∀ x y z res : ℤ, 0 ≤ x → x < res → 0 ≤ y → y < res → 0 ≤ z → z < res →
        gridIndex3Dto1D x y z res = x + y * res + z * res * res) := by
  refine ⟨fun N res gm invW pos ind gi i h0 h1 => ⟨?_, ?_⟩,
    fun x y z res h => ?_, fun x y z res hx0 hx1 hy0 hy1 hz0 hz1 => ?_⟩
  · simp [kernComputeIndices, h0, h1]
  · simp [kernComputeIndices, boidGridIndex, h0, h1]
  · rw [gridIndex3Dto1D, if_pos h]
  · rw [gridIndex3Dto1D, if_neg (by omega)]

/-- C7 witness: the theorem applied at a one-particle memory and at
concrete in-range and out-of-range cell coordinates. -/
theorem c7_witness :
    ((kernComputeIndices 1 22 gridMinimum gridInverseCellWidth (fun _ => ⟨0, 0, 0⟩)
        (fun _ => 5) (fun _ => 5)).1 0 = 0 ∧
      (kernComputeIndices 1 22 gridMinimum gridInverseCellWidth (fun _ => ⟨0, 0, 0⟩)
        (fun _ => 5) (fun _ => 5)).2 0 =
        gridIndex3Dto1D (cellCoord (0 : ℚ) gridMinimum.x gridInverseCellWidth)
          (cellCoord (0 : ℚ) gridMinimum.y gridInverseCellWidth)
          (cellCoord (0 : ℚ) gridMinimum.z gridInverseCellWidth) 22) ∧
    gridIndex3Dto1D 30 0 0 22 = -1 ∧
    gridIndex3Dto1D 1 2 3 22 = 1 + 2 * 22 + 3 * 22 * 22 :=
  ⟨c7_kernComputeIndices_correct.1 1 22 gridMinimum gridInverseCellWidth
      (fun _ => ⟨0, 0, 0⟩) (fun _ => 5) (fun _ => 5) 0 (by decide) (by decide),
   c7_kernComputeIndices_correct.2.1 30 0 0 22 (Or.inl (by decide)),
   c7_kernComputeIndices_correct.2.2 1 2 3 22 (by decide) (by decide) (by decide) (by decide)
     (by decide) (by decide)⟩

theorem cellCoord_bounds (c : ℚ) (h0 : -(100 : ℚ) ≤ c) (h1 : c ≤ 100) :
    1 ≤ cellCoord c (-110) (1 / 10) ∧ cellCoord c (-110) (1 / 10) ≤ 21 := by
  unfold cellCoord
  constructor
  · rw [Int.le_floor]
    push_cast
    linarith
  · have h22 : ⌊(c - (-110)) * (1 / 10)⌋ < 22 := by
      rw [Int.floor_lt]
      push_cast
      linarith
    omega

/-- C9: under the grid parameters derived in `initSimulation` (side count
22, minimum corner -110 per axis, inverse cell width 1/10), every
position inside `[-scene_scale, scene_scale]³` gets 3D cell coordinates
inside `[0, gridSideCount)` — in fact inside `[1, 21]` — so its encoded
cell id lies in `[0, gridCellCount)` and the sentinel `-1` is never
produced (hence never stored in `GridIndex`, and `renewGridCellIndex`
never indexes `CellHeadLookup` with `-1`). -/
theorem c9_no_sentinel_in_domain (p : Vec3)
    (hx0 : -scene_scale ≤ p.x) (hx1 : p.x ≤ scene_scale)
    (hy0 : -scene_scale ≤ p.y) (hy1 : p.y ≤ scene_scale)
    (hz0 : -scene_scale ≤ p.z) (hz1 : p.z ≤ scene_scale) :
    (0 ≤ cellCoord p.x gridMinimum.x gridInverseCellWidth ∧
      cellCoord p.x gridMinimum.x gridInverseCellWidth < gridSideCount) ∧
    (0 ≤ cellCoord p.y gridMinimum.y gridInverseCellWidth ∧
      cellCoord p.y gridMinimum.y gridInverseCellWidth < gridSideCount) ∧
    (0 ≤ cellCoord p.z gridMinimum.z gridInverseCellWidth ∧
      cellCoord p.z gridMinimum.z gridInverseCellWidth < gridSideCount) ∧
    (0 ≤ boidCellOf p ∧ boidCellOf p < gridCellCount) ∧ boidCellOf p ≠ -1 := by
  have hmx : gridMinimum.x = -110 := by decide
  have hmy : gridMinimum.y = -110 := by decide
  have hmz : gridMinimum.z = -110 := by decide
  have hinv : gridInverseCellWidth = 1 / 10 := by decide
  have hside : gridSideCount = 22 := by decide
  have hcc : gridCellCount = 10648 := by decide
  have hss : scene_scale = 100 := rfl
  rw [hss] at hx0 hx1 hy0 hy1 hz0 hz1
  unfold boidCellOf boidGridIndex
  rw [hmx, hmy, hmz, hinv, hside, hcc]
  obtain ⟨hax, hbx⟩ := cellCoord_bounds p.x hx0 hx1
  obtain ⟨hay, hby⟩ := cellCoord_bounds p.y hy0 hy1
  obtain ⟨haz, hbz⟩ := cellCoord_bounds p.z hz0 hz1
  rw [gridIndex3Dto1D, if_neg (by omega)]
  refine ⟨⟨by omega, by omega⟩, ⟨by omega, by omega⟩, ⟨by omega, by omega⟩,
    ⟨by omega, by omega⟩, by omega⟩

/-- C9 witness: the origin is in the domain; its cell is (11,11,11) and
its cell id is well inside `[0, gridCellCount)`. -/
theorem c9_witness :
    (-scene_scale ≤ (0 : ℚ) ∧ (0 : ℚ) ≤ scene_scale) ∧
    (0 ≤ boidCellOf ⟨0, 0, 0⟩ ∧ boidCellOf ⟨0, 0, 0⟩ < gridCellCount) ∧
    boidCellOf ⟨0, 0, 0⟩ ≠ -1 :=
  ⟨⟨by decide, by decide⟩,
   (c9_no_sentinel_in_domain ⟨0, 0, 0⟩ (by decide) (by decide) (by decide) (by decide)
      (by decide) (by decide)).2.2.2.1,
   (c9_no_sentinel_in_domain ⟨0, 0, 0⟩ (by decide) (by decide) (by decide) (by decide)
      (by decide) (by decide)).2.2.2.2⟩

/-- C6: the velocity written to the next buffer never exceeds the speed
cap: when the computed velocity's magnitude is within the cap it is
written unchanged, and when it exceeds the cap it is rescaled to exactly
the cap by the positive factor `maxSpeed / ‖v‖` (preserving direction);
the clamped value goes into slot `i` of the next buffer `vel2` while the
current buffer `vel1` is untouched. -/
theorem c6_speed_clamp :
    ∀ (v : RVec3) (vel1 vel2 : ℤ → RVec3) (i : ℤ),
      RVec3.len (clampSpeed v) ≤ maxSpeedR ∧
      (RVec3.len v ≤ maxSpeedR → clampSpeed v = v) ∧
      (maxSpeedR < RVec3.len v →
        RVec3.len (clampSpeed v) = maxSpeedR ∧
        clampSpeed v = RVec3.rsmul (maxSpeedR / RVec3.len v) v ∧
        0 < maxSpeedR / RVec3.len v) ∧
      (kernVelClampWrite vel1 vel2 i v).1 = vel1 ∧
      (kernVelClampWrite vel1 vel2 i v).2 i = clampSpeed v := by
  intro v vel1 vel2 i
  have hcap : (0 : ℝ) < maxSpeedR := by norm_num [maxSpeedR]
  have hover : maxSpeedR < v.len → v.len ≠ 0 := fun h => by
    have := lt_trans hcap h
    linarith
  have hlen : maxSpeedR < v.len → RVec3.len (clampSpeed v) = maxSpeedR := by
    intro h
    have hpos : 0 < v.len := lt_trans hcap h
    unfold clampSpeed
    rw [if_pos h, RVec3.len_rsmul, abs_of_pos (div_pos hcap hpos),
      div_mul_cancel₀ _ (hover h)]
  refine ⟨?_, fun h => ?_, fun h => ⟨hlen h, ?_, ?_⟩, rfl, ?_⟩
  · by_cases h : maxSpeedR < v.len
    · exact le_of_eq (hlen h)
    · unfold clampSpeed
      rw [if_neg h]
      exact le_of_not_lt h
  · unfold clampSpeed
    rw [if_neg (not_lt.mpr h)]
  · unfold clampSpeed
    rw [if_pos h]
  · exact div_pos hcap (lt_trans hcap h)
  · unfold kernVelClampWrite
    simp

/-- C6 witness: the vector (2,0,0) has length 2 over the cap; the clamp
rescales it to length exactly `maxSpeed`. -/
theorem c6_witness :
    maxSpeedR < RVec3.len ⟨2, 0, 0⟩ ∧ RVec3.len (clampSpeed ⟨2, 0, 0⟩) = maxSpeedR := by
  have h2 : RVec3.len ⟨2, 0, 0⟩ = 2 := by
    unfold RVec3.len RVec3.normSq
    norm_num
    rw [show (4 : ℝ) = 2 ^ 2 by norm_num, Real.sqrt_sq (by norm_num : (0:ℝ) ≤ 2)]
  have hlt : maxSpeedR < RVec3.len ⟨2, 0, 0⟩ := by
    rw [h2]
    norm_num [maxSpeedR]
  exact ⟨hlt,
    ((c6_speed_clamp ⟨2, 0, 0⟩ (fun _ => ⟨0, 0, 0⟩) (fun _ => ⟨0, 0, 0⟩) 0).2.2.1 hlt).1⟩

/-- C8 (amended): a step call after teardown is not rejected — the step
functions contain no teardown check (and never invoke the error
handler), so stepping the torn-down state performs exactly the
computation stepping the live state would, for all three strategies:
stepping commutes with `endSimulation`. -/
theorem c8_no_fail_fast :
    ∀ (rescale : Vec3 → Vec3) (dt : ℚ) (s : SimState),
      stepSimulationNaive rescale dt (endSimulation s) =
        endSimulation (stepSimulationNaive rescale dt s) ∧
      stepSimulationScatteredGrid rescale dt (endSimulation s) =
        endSimulation (stepSimulationScatteredGrid rescale dt s) ∧
      stepSimulationCoherentGrid rescale dt (endSimulation s) =
        endSimulation (stepSimulationCoherentGrid rescale dt s) :=
  fun _ _ _ => ⟨rfl, rfl, rfl⟩

/-- C8 counterexample: after `endSimulation` has released the buffers, a
further `stepSimulationNaive` call proceeds and computes the ordinary
update of the (released) state — it does not fail fast: the modelled run
returns normally with the integrated position. -/
theorem c8_counterexample :
    (endSimulation ex8State).freed = true ∧
    (stepSimulationNaive idRescale 1 (endSimulation ex8State)).pos 0 = ⟨1, 2, 3⟩ ∧
    (stepSimulationNaive idRescale 1 (endSimulation ex8State)).vel1 0 = ⟨0, 0, 0⟩ := by
  refine ⟨rfl, by decide, by decide⟩

/-- C2: the claim says one brute-force step and one scattered-grid step
produce identical new velocities for every particle.  On `ex2State`
(four particles, zero velocities) the brute-force step gives particle 0
the new velocity `(-2/25, 0, 0)` while the scattered-grid step gives it
`(-23/300, 0, 0)`: the off-by-one cell range (`end[1] = 3` instead of 2)
makes the focal-cell loop of sorted slot 1 also visit sorted slot 3, so
the particle at (11,5,5) — already contributed by the 3×3×3 neighborhood
sweep — is double-counted in rules 1 and 3.  For particle 2 the
scattered step returns `(0,0,0)` instead of `(7/40,0,0)`, missing both
true neighbors (the corrupted head value `CellHeadLookup[5577] = 0`
points at the far particle's run).  All computed magnitudes stay below
the speed cap, so the abstracted rescale branch is never taken. -/
theorem c2_brute_vs_scattered_bug :
    ((stepSimulationNaive idRescale 0 ex2State).vel1 0 = ⟨-2/25, 0, 0⟩ ∧
      (stepSimulationScatteredGrid idRescale 0 ex2State).vel1 0 = ⟨-23/300, 0, 0⟩ ∧
      (stepSimulationNaive idRescale 0 ex2State).vel1 0 ≠
        (stepSimulationScatteredGrid idRescale 0 ex2State).vel1 0) ∧
    ((stepSimulationNaive idRescale 0 ex2State).vel1 2 = ⟨7/40, 0, 0⟩ ∧
      (stepSimulationScatteredGrid idRescale 0 ex2State).vel1 2 = ⟨0, 0, 0⟩) := by
  decide

/-- C3 counterexample: the claim says coherent-grid results are stored
back in canonical (unsorted) particle-id order so the two grid
strategies agree per particle id.  On `ex3State` (two isolated, resting
particles whose cell-id sort swaps them) one scattered step leaves
particle 0 at (50,5,5), but one coherent step exposes (-50,5,5) at id 0:
the final `cudaMemcpy` copies the sorted-order buffers back verbatim,
with no unsorting. -/
theorem c3_counterexample :
    (stepSimulationScatteredGrid idRescale 1 ex3State).pos 0 = ⟨50, 5, 5⟩ ∧
    (stepSimulationCoherentGrid idRescale 1 ex3State).pos 0 = ⟨-50, 5, 5⟩ ∧
    (stepSimulationCoherentGrid idRescale 1 ex3State).pos 0 ≠
      (stepSimulationScatteredGrid idRescale 1 ex3State).pos 0 := by
  decide

/-- C3 (amended): the coherent strategy does compute the same neighbor
set — the coherent per-slot velocity on the rearranged buffers equals
the scattered velocity of the particle occupying that slot, for every
state of the tables — but the step exposes its results permuted by the
step's sort: on `ex3State` the coherent step's output at each id equals
the scattered step's output at the sorted particle of that slot
(`pai 0 = 1`, `pai 1 = 0`), not at the id itself. -/
theorem c3_coherent_permuted :
    (∀ (index : ℤ) (pos vel : ℤ → Vec3) (pai keys starts cellEnds ch : ℤ → ℤ) (side : ℤ),
        CoherentUpDateVelocity index (fun i => pos (pai i)) (fun i => vel (pai i))
          keys starts cellEnds ch side =
        newUpdateVelocity index (pai index) pos vel pai keys starts cellEnds ch side) ∧
    ((stepSimulationCoherentGrid idRescale 1 ex3State).pai 0 = 1 ∧
      (stepSimulationCoherentGrid idRescale 1 ex3State).pai 1 = 0 ∧
      (stepSimulationCoherentGrid idRescale 1 ex3State).pos 0 =
        (stepSimulationScatteredGrid idRescale 1 ex3State).pos 1 ∧
      (stepSimulationCoherentGrid idRescale 1 ex3State).pos 1 =
        (stepSimulationScatteredGrid idRescale 1 ex3State).pos 0 ∧
      (stepSimulationCoherentGrid idRescale 1 ex3State).vel1 0 =
        (stepSimulationScatteredGrid idRescale 1 ex3State).vel1 1) :=
  ⟨fun _ _ _ _ _ _ _ _ _ => rfl, by decide⟩
